import Mathlib

/-!
Verification of the WebProxy forwarding engine (`src/MessageForwarder.cpp`).

A shallow embedding of the request-forwarding engine of the WebProxy
repository.  All strings handled by the proxy are ASCII, so C++ byte
indices coincide with `Char` indices of Lean strings; `std::string`
values are modelled as `String`, sockets as `Int` file descriptors, and
the `std::map<std::string,int>` connection pool as an association list
with unique keys.  Network reads are modelled as an explicit list of
read events; client-side `send` calls are modelled as succeeding (the
claims under study do not involve client write failures).
-/

namespace WebProxy

/-! ## String helpers: `std::string::find` and `std::stoul` -/

/-- Index (counted from `i`) of the first occurrence of `pat` in
`s`, as `std::string::find` computes it. -/
def findSubAux (pat : List Char) : List Char → Nat → Option Nat
  | [], i => if pat = [] then some i else none
  | c :: rest, i =>
    if pat.isPrefixOf (c :: rest) then some i else findSubAux pat rest (i + 1)

/-- The `s.find(pat)` operation of `std::string`, returning `none`
for `npos`. -/
def findSub (s pat : String) : Option Nat :=
  findSubAux pat.data s.data 0

/-- Whether `s.find(pat) != std::string::npos`. -/
def containsSub (s pat : String) : Bool :=
  (findSub s pat).isSome

/-- Value of a list of decimal digit characters. -/
def digitsToNat (ds : List Char) : Nat :=
  ds.foldl (fun a c => a * 10 + (c.toNat - 48)) 0

/-- C-locale `isspace`: space and the characters `\t`, `\n`, vertical
tab, form feed, `\r` (codes 9-13), as skipped by `strtoul`. -/
def isSpaceChar (c : Char) : Bool :=
  c == ' ' || (decide (9 ≤ c.toNat) && decide (c.toNat ≤ 13))

/-- Core of `std::stoul`: parse a non-empty run of leading decimal
digits.  `none` models the throws: `std::invalid_argument` when there
is no digit, `std::out_of_range` when the digit run's value exceeds
`ULONG_MAX` (`2^64 - 1` on LP64 Linux). -/
def stoulCore (cs : List Char) : Option Nat :=
  let ds := cs.takeWhile Char.isDigit
  if ds.isEmpty then none
  else if 2 ^ 64 - 1 < digitsToNat ds then none
  else some (digitsToNat ds)

/-- Model of `std::stoul` on an ASCII string: skip `isspace`
characters, allow one optional sign (an in-range negative value wraps
modulo `2^64` as `strtoul` on `unsigned long` does), then require at
least one decimal digit whose run's value is within `ULONG_MAX`;
`none` models both the `std::invalid_argument` and the
`std::out_of_range` throw. -/
def stoulOpt (s : String) : Option Nat :=
  match s.data.dropWhile isSpaceChar with
  | '-' :: rest => (stoulCore rest).map (fun n => (2 ^ 64 - n) % 2 ^ 64)
  | '+' :: rest => stoulCore rest
  | cs => stoulCore cs

/-- Whether `strcasecmp(a, b) == 0` on ASCII strings. -/
def strcaseEq (a b : String) : Bool :=
  a.toLower == b.toLower

/-! ## Connection pool (`MessageForwarder.cpp` lines 272-300)

The pool `keepAliveConnections : std::map<std::string,int>` is modelled
as an association list with unique keys; each operation takes the pool
value and returns the updated pool, together with the sockets it
closed. -/

/-- The pool key `host + ":" + port`. -/
def poolKey (host port : String) : String :=
  host ++ ":" ++ port

/-- Model of `MessageForwarder::getKeepAliveConnection` (lines
272-280): look
the key up and return the stored socket, or `-1` when absent.  The
method only reads the map, so the returned pool is the argument pool
unchanged. -/
def getKeepAliveConnection (pool : List (String × Int)) (host port : String) :
    Int × List (String × Int) :=
  match pool.lookup (poolKey host port) with
  | some s => (s, pool)
  | none => (-1, pool)

/-- Model of `MessageForwarder::saveKeepAliveConnection` (lines
282-293): if an
entry for the key exists its socket is closed, then the new socket is
stored under the key.  Returns the new pool and the list of sockets
closed by the call. -/
def saveKeepAliveConnection (pool : List (String × Int)) (host port : String)
    (socket : Int) : List (String × Int) × List Int :=
  let key := poolKey host port
  match pool.lookup key with
  | some old =>
      (pool.filter (fun kv => !(kv.1 == key)) ++ [(key, socket)], [old])
  | none =>
      (pool.filter (fun kv => !(kv.1 == key)) ++ [(key, socket)], [])

/-- Model of `MessageForwarder::removeKeepAliveConnection` (lines
295-300): erase the key without closing. -/
def removeKeepAliveConnection (pool : List (String × Int)) (host port : String) :
    List (String × Int) :=
  pool.filter (fun kv => !(kv.1 == poolKey host port))

/-! ## HTTP request and `buildForwardRequest` (lines 140-169) -/

/-- The parsed client request handed to the engine (`HttpRequest`).
The header map is modelled as an association list with unique keys;
`std::map::find` with an exact key becomes `List.lookup`. -/
structure HttpRequest where
  method : String
  request : String
  version : String
  host : String
  port : String
  headers : List (String × String)
  body : String
  url : String
deriving DecidableEq

/-- The fixed hop-by-hop strip list of `buildForwardRequest`
(lines 149-156). -/
def hopByHopNames : List String :=
  ["Connection", "Keep-Alive", "Proxy-Connection", "Proxy-Authorization",
   "TE", "Trailer", "Transfer-Encoding", "Upgrade"]

/-- A header name matches the strip list (eight `strcasecmp` tests). -/
def isHopByHop (name : String) : Bool :=
  hopByHopNames.any (fun n => strcaseEq name n)

/-- One emitted header line `name ++ ": " ++ value ++ "\r\n"`. -/
def headerLine (h : String × String) : String :=
  h.1 ++ ": " ++ h.2 ++ "\r\n"

/-- The header lines the loop of lines 147-160 emits, in order. -/
def renderHeaders : List (String × String) → String
  | [] => ""
  | h :: t => headerLine h ++ renderHeaders t

/-- The header list of the forwarded request: the request's headers
with the hop-by-hop names skipped, followed by the appended
`Connection: keep-alive` (line 163). -/
def forwardHeaderList (hs : List (String × String)) : List (String × String) :=
  hs.filter (fun h => !(isHopByHop h.1)) ++ [("Connection", "keep-alive")]

/-- Model of `MessageForwarder::buildForwardRequest` (lines
140-169): request
line, the non-hop-by-hop headers, the injected `Connection:
keep-alive`, and the terminating blank line.  The body is not
appended. -/
def buildForwardRequest (req : HttpRequest) : String :=
  req.method ++ " " ++ req.request ++ " " ++ req.version ++ "\r\n" ++
  renderHeaders (req.headers.filter (fun h => !(isHopByHop h.1))) ++
  "Connection: keep-alive\r\n" ++
  "\r\n"

/-! ## `sendErrorResponse` (lines 253-267) -/

/-- The HTML body built at line 259. -/
def errorBody (statusCode : Nat) (statusText : String) : String :=
  "<html><body><h1>" ++ toString statusCode ++ " " ++ statusText ++
  "</h1></body></html>"

/-- Model of `MessageForwarder::sendErrorResponse`: the exact bytes
written to
the client socket. -/
def sendErrorResponse (statusCode : Nat) (statusText : String) : String :=
  "HTTP/1.1 " ++ toString statusCode ++ " " ++ statusText ++ "\r\n" ++
  "Content-Type: text/html\r\n" ++
  "Connection: close\r\n" ++
  "Content-Length: " ++ toString (errorBody statusCode statusText).length ++
  "\r\n" ++
  "\r\n" ++
  errorBody statusCode statusText

/-! ## The GET/POST response loop

The response loops of `forwardGet` (lines 50-121) and `forwardPost`
(lines 416-481) are textually identical; they are embedded once.  Each
`recv` on the upstream socket is a `ReadEv`; the loop runs while the
read yields bytes and stops on EOF, error, or `break`. -/

/-- One upstream `recv` outcome: a non-empty chunk (`> 0`), EOF (`0`),
or a read error (`< 0`). -/
inductive ReadEv where
  | chunk (s : String)
  | eof
  | readErr
deriving DecidableEq

/-- The loop-local state of the response loop (lines 41-47), plus the
list of byte strings so far written to the client socket. -/
structure RespState where
  responseHeaders : String
  headersComplete : Bool
  contentLength : Nat
  receivedBodyBytes : Nat
  chunkedEncoding : Bool
  keepAliveServer : Bool
  sent : List String
deriving DecidableEq

/-- The state at loop entry. -/
def initRespState : RespState :=
  { responseHeaders := "", headersComplete := false, contentLength := 0,
    receivedBodyBytes := 0, chunkedEncoding := false,
    keepAliveServer := false, sent := [] }

/-- Outcome of one loop iteration on a received chunk: fall through to
the next `recv` (`more`), leave the loop via `break` (`halt`), or
propagate an uncaught `std::stoul` exception (`threw`). -/
inductive StepRes where
  | more (st : RespState)
  | halt (st : RespState)
  | threw (st : RespState)
deriving DecidableEq

/-- The `Content-Length` value characters: from `valueStart` to the
next `"\r\n"`, or to the end of the header section when `find`
returns `npos` (lines 73-75 and 437-439). -/
def contentLengthValue (headerSection : String) (pos : Nat) : String :=
  let tail := String.mk (headerSection.data.drop (pos + 16))
  match findSub tail "\r\n" with
  | some e => String.mk (tail.data.take e)
  | none => tail

/-- The header-completion processing of lines 59-97: extract the
header section, record `Connection: keep-alive`, convert the
`Content-Length` value with `std::stoul` (an unparsable value throws),
record chunked encoding, count the body bytes already received, send
the whole accumulated buffer to the client, and `break` when the body
is already complete or absent. -/
def headerPhase (st : RespState) (rh : String) (headerEnd : Nat) : StepRes :=
  let headerSection := String.mk (rh.data.take headerEnd)
  let kas := if containsSub headerSection "Connection: keep-alive" then true
             else st.keepAliveServer
  let clParsed : Option Nat :=
    match findSub headerSection "Content-Length: " with
    | some pos => stoulOpt (contentLengthValue headerSection pos)
    | none => some st.contentLength
  match clParsed with
  | none =>
      .threw { st with responseHeaders := rh, headersComplete := true,
                       keepAliveServer := kas }
  | some cl =>
      let chunked := if containsSub headerSection "Transfer-Encoding: chunked"
                     then true else st.chunkedEncoding
      let received := rh.length - (headerEnd + 4)
      let st' : RespState :=
        { responseHeaders := rh, headersComplete := true, contentLength := cl,
          receivedBodyBytes := received, chunkedEncoding := chunked,
          keepAliveServer := kas, sent := st.sent ++ [rh] }
      if (0 < cl ∧ cl ≤ received) ∨ (cl = 0 ∧ chunked = false) then .halt st'
      else .more st'

/-- One iteration of the response loop body (lines 51-120) on the
chunk delivered by `recv`. -/
def respStep (st : RespState) (chunk : String) : StepRes :=
  if st.headersComplete then
    let received := st.receivedBodyBytes + chunk.length
    let st' := { st with receivedBodyBytes := received,
                         sent := st.sent ++ [chunk] }
    if 0 < st.contentLength ∧ st.contentLength ≤ received then .halt st'
    else if st.chunkedEncoding ∧ containsSub chunk "0\r\n\r\n" then .halt st'
    else .more st'
  else
    let rh := st.responseHeaders ++ chunk
    match findSub rh "\r\n\r\n" with
    | none => .more { st with responseHeaders := rh }
    | some headerEnd => headerPhase st rh headerEnd

/-- How the response loop ended: normally (`done`, with the flag
recording whether the final `recv` returned an error), or through the
uncaught exception (`crashed`). -/
inductive LoopRes where
  | done (st : RespState) (readError : Bool)
  | crashed (st : RespState)
deriving DecidableEq

/-- The response loop over a list of read events.  An exhausted event
list stands for an upstream that never answers again; the loop is left
as if at EOF. -/
def responseLoop (st : RespState) : List ReadEv → LoopRes
  | [] => .done st false
  | ev :: rest =>
    match ev with
    | .eof => .done st false
    | .readErr => .done st true
    | .chunk s =>
      match respStep st s with
      | .more st' => responseLoop st' rest
      | .halt st' => .done st' false
      | .threw st' => .crashed st'

/-- The observable outcome of a GET/POST exchange's response phase. -/
structure ForwardOutcome where
  sent : List String
  keepAliveServer : Bool
  pooledServer : Bool
  closedServer : Bool
  readError : Bool
  crashed : Bool
deriving DecidableEq

/-- The response phase of `forwardGet` (lines 50-134) and of
`forwardPost` (lines 416-494): run the loop from the initial state,
then close the upstream socket when `keepAliveServer` is false and
hand it to the pool otherwise (lines 129-134).  The uncaught
`std::stoul` exception terminates the handler before either happens. -/
def forwardResponsePhase (reads : List ReadEv) : ForwardOutcome :=
  match responseLoop initRespState reads with
  | .done st e =>
      { sent := st.sent, keepAliveServer := st.keepAliveServer,
        pooledServer := st.keepAliveServer,
        closedServer := !st.keepAliveServer, readError := e, crashed := false }
  | .crashed st =>
      { sent := st.sent, keepAliveServer := st.keepAliveServer,
        pooledServer := false, closedServer := false, readError := false,
        crashed := true }

/-! ## The entry phase of `forwardPost` (lines 302-343)

The handler's observable actions up to the framing validation, in
program order: the dial, then either the `502` on dial failure, or the
validation outcome (`close(serverSocket)` plus `400`, or proceeding to
forward the request). -/

/-- One observable action of the POST entry phase. -/
inductive PAct where
  | dialUpstream (host port : String)
  | sendClient502
  | sendClient400
  | closeServerSock
  | goForward
deriving DecidableEq

/-- The request's `Content-Length` header read at lines 317-327:
`none` when the header is absent, `some none` when present but
`std::stoul` throws, `some (some n)` when it parses to `n`. -/
def requestContentLength (req : HttpRequest) : Option (Option Nat) :=
  match req.headers.lookup "Content-Length" with
  | none => none
  | some v => some (stoulOpt v)

/-- The `contentLength` value the handler works with afterwards:
`0` when the header is absent, else the parsed value. -/
def requestCLValue (req : HttpRequest) : Nat :=
  match requestContentLength req with
  | some (some n) => n
  | _ => 0

/-- Detection of `chunked` on the request (lines 330-335): the
`Transfer-Encoding` header value contains `"chunked"`. -/
def requestChunked (req : HttpRequest) : Bool :=
  match req.headers.lookup "Transfer-Encoding" with
  | none => false
  | some v => containsSub v "chunked"

/-- Model of `MessageForwarder::forwardPost`, lines 305-343: the
upstream dial
happens first (line 307, with the empty-port default of line 306);
only afterwards is the request framing validated.  An unparsable
`Content-Length` (lines 318-327), or no framing with a non-empty body
(lines 338-343), closes the just-dialed upstream socket and emits
`400 Bad Request`. -/
def forwardPostEntry (req : HttpRequest) (dialOk : Bool) : List PAct :=
  let port := if req.port = "" then "80" else req.port
  .dialUpstream req.host port ::
    (if dialOk = false then [.sendClient502]
     else if requestContentLength req = some none then
       [.closeServerSock, .sendClient400]
     else if requestCLValue req = 0 ∧ requestChunked req = false ∧
             req.body ≠ "" then
       [.closeServerSock, .sendClient400]
     else [.goForward])

/-! ## The pool-probe phase of `connectToServer` (lines 174-186)

When the pool holds a socket for the authority, the code peeks one
byte with `MSG_PEEK | MSG_DONTWAIT` and tests the return value
against `0` only. -/

/-- The four possible outcomes of the liveness peek: `recv` returns
`> 0` (bytes pending), `0` (orderly close by the peer), or `-1` with
`errno` either `EAGAIN`/`EWOULDBLOCK` (no data, connection open) or a
real error. -/
inductive PeekRes where
  | bytesReady
  | orderlyClose
  | wouldBlock
  | peekErr
deriving DecidableEq

/-- What the dial does next after consulting the pool. -/
inductive DialStep where
  | reusePooled (socket : Int) (pool : List (String × Int))
  | freshDial (pool : List (String × Int)) (closed : List Int)
deriving DecidableEq

/-- Lines 174-186 of `MessageForwarder::connectToServer`: query the
pool; on a hit, peek one byte non-blockingly and compare the result
with `0`: an orderly close means close the socket, remove the entry
and fall through to the fresh dial; every other return value — bytes
pending, would-block, or an error — returns the pooled socket as
live. -/
def connectToServerPoolStep (pool : List (String × Int)) (host port : String)
    (peek : PeekRes) : DialStep :=
  let probe := getKeepAliveConnection pool host port
  if 0 < probe.1 then
    match peek with
    | .orderlyClose =>
        .freshDial (removeKeepAliveConnection probe.2 host port) [probe.1]
    | _ => .reusePooled probe.1 probe.2
  else
    .freshDial probe.2 []

/-! ## The `CONNECT` handler (lines 499-678)

Only the handler's socket-lifecycle skeleton matters for the claims:
which sockets it writes to and which it closes, on every path after a
successful dial.  The tunnel loop body (lines 535-671) performs sends
and loop-control only — it contains no `close` call; its inner write
loop is abstracted to a success flag on each forwarding event. -/

/-- One observable socket action of the `CONNECT` handler. -/
inductive CAct where
  | sendClient (s : String)
  | sendFd (fd : Int) (s : String)
  | closeFd (fd : Int)
deriving DecidableEq

/-- One iteration's worth of tunnel-loop input: the `select` outcome
and, when a side is readable, what its `recv` and the subsequent
forwarding write produced. -/
inductive TunnelEv where
  | selIntr
  | selErr
  | selTimeout
  | clientBytes (s : String) (writeOk : Bool)
  | clientClosed
  | clientAgain
  | serverBytes (s : String) (writeOk : Bool)
  | serverClosed
  | serverAgain
deriving DecidableEq

/-- One iteration of the tunnel loop (lines 535-671): the emitted
actions and whether the loop continues.  `EINTR` and the idle timeout
continue; a fatal `select` error, a peer close/error, or a failed
forwarding write terminate; data is forwarded to the opposite
socket.  No branch closes a socket. -/
def tunnelStep (clientSocket serverSocket : Int) :
    TunnelEv → List CAct × Bool
  | .selIntr => ([], true)
  | .selErr => ([], false)
  | .selTimeout => ([], true)
  | .clientAgain => ([], true)
  | .clientClosed => ([], false)
  | .clientBytes s ok =>
      (if ok then [.sendFd serverSocket s] else [], ok)
  | .serverAgain => ([], true)
  | .serverClosed => ([], false)
  | .serverBytes s ok =>
      (if ok then [.sendFd clientSocket s] else [], ok)

/-- The tunnel loop run over a list of events; stops at the first
terminating event. -/
def runTunnel (clientSocket serverSocket : Int) : List TunnelEv → List CAct
  | [] => []
  | ev :: rest =>
    let step := tunnelStep clientSocket serverSocket ev
    if step.2 then step.1 ++ runTunnel clientSocket serverSocket rest
    else step.1

/-- The `200 Connection Established` bytes of lines 511-513. -/
def connectEstablished : String :=
  "HTTP/1.1 200 Connection Established\r\nProxy-Agent: MyProxy/1.0\r\n\r\n"

/-- Model of `MessageForwarder::forwardConnect` as its sequence of
observable
socket actions.  On dial failure: the `502` only.  After a successful
dial: the `200` write (a failed write closes the upstream and
returns, lines 515-519), then the tunnel loop, then the
`close(serverSocket)` of line 674.  The client socket is closed on no
path. -/
def forwardConnect (clientSocket serverSocket : Int) (dialOk send200Ok : Bool)
    (evs : List TunnelEv) : List CAct :=
  if dialOk = false then
    [.sendClient (sendErrorResponse 502 "Bad Gateway")]
  else if send200Ok = false then
    [.sendClient connectEstablished, .closeFd serverSocket]
  else
    .sendClient connectEstablished ::
      (runTunnel clientSocket serverSocket evs ++ [.closeFd serverSocket])

/-! ## Projections and concrete inputs used by the verification -/

/-- Whether a step result falls through to the next `recv`. -/
def stepIsMore : StepRes → Bool
  | .more _ => true
  | _ => false

/-- Whether a step result is the uncaught exception. -/
def stepThrew : StepRes → Bool
  | .threw _ => true
  | _ => false

/-- The state carried by a step result. -/
def stepState : StepRes → RespState
  | .more st => st
  | .halt st => st
  | .threw st => st

/-- A pool holding one live socket for `example.com:80`. -/
def c1Pool : List (String × Int) := [("example.com:80", 7)]

/-- A response header block with neither `Content-Length` nor chunked
encoding. -/
def c2Hdr : String := "HTTP/1.1 200 OK\r\n\r\n"

/-- An upstream that sends the bare header block, then more bytes,
then EOF. -/
def c2Trace : List ReadEv := [.chunk c2Hdr, .chunk "more-bytes", .eof]

/-- Scenario S3 of the specification: the whole chunked response —
header block, one chunk, and the `0\r\n\r\n` terminator — delivered by
a single upstream read. -/
def s3Read : String :=
  "HTTP/1.1 200 OK\r\nTransfer-Encoding: chunked\r\n\r\n5\r\nhello\r\n0\r\n\r\n"

/-- A keep-alive response header block announcing a 10-byte body. -/
def c4Hdr : String :=
  "HTTP/1.1 200 OK\r\nConnection: keep-alive\r\nContent-Length: 10\r\n\r\n"

/-- The header block arrives, then the next upstream read fails. -/
def c4Trace : List ReadEv := [.chunk c4Hdr, .readErr]

/-- A pool holding one socket for `example.com:80`, probed by the
dialer. -/
def c5Pool : List (String × Int) := [("example.com:80", 7)]

/-- Scenario S4 of the specification: a POST whose `Content-Length`
value is unparsable and whose body is non-empty. -/
def s4Req : HttpRequest :=
  { method := "POST", request := "http://example.com/x",
    version := "HTTP/1.1", host := "example.com", port := "80",
    headers := [("Content-Length", "not-a-number"), ("Host", "example.com")],
    body := "x", url := "http://example.com/x" }

/-- A keep-alive response header block whose `Content-Length` value
`20000000000000000000` exceeds `ULONG_MAX`, so `std::stoul` throws
`std::out_of_range`. -/
def c4OverflowHdr : String :=
  "HTTP/1.1 200 OK\r\nConnection: keep-alive\r\nContent-Length: 20000000000000000000\r\n\r\n"

/-- The overflowing keep-alive header block as a one-read trace. -/
def c4OverflowTrace : List ReadEv := [ReadEv.chunk c4OverflowHdr]

/-- A POST whose `Content-Length` value `99999999999999999999` is
numeric but above `ULONG_MAX`: `std::stoul` throws
`std::out_of_range`, caught at lines 321-326. -/
def c6OverflowReq : HttpRequest :=
  { method := "POST", request := "http://example.com/x",
    version := "HTTP/1.1", host := "example.com", port := "80",
    headers := [("Content-Length", "99999999999999999999"),
                ("Host", "example.com")],
    body := "x", url := "http://example.com/x" }

/-- A response header block whose `Content-Length` value is not a
number. -/
def c10Read : String := "HTTP/1.1 200 OK\r\nContent-Length: abc\r\n\r\n"

/-- A response header block whose `Content-Length` value starts with
a newline byte: `strtoul` skips it as `isspace` and parses `5`. -/
def c10WsRead : String := "HTTP/1.1 200 OK\r\nContent-Length: \n5\r\n\r\n"

/-- A response header block whose `Content-Length` value exceeds
`ULONG_MAX`. -/
def c10OverflowRead : String :=
  "HTTP/1.1 200 OK\r\nContent-Length: 20000000000000000000\r\n\r\n"

/-! ## Theorems -/

/-- C1 (amended): `getKeepAliveConnection` returns the stored socket
for a present key but leaves the entry in place — the pool value after
the call is the argument pool unchanged, and a second `get` for the
same key immediately afterwards returns the same socket, not
absence. -/
theorem getKeepAliveConnection_nonremoving (pool : List (String × Int))
    (host port : String) (s : Int)
    (h : pool.lookup (poolKey host port) = some s) :
    getKeepAliveConnection pool host port = (s, pool) ∧
    (getKeepAliveConnection
        (getKeepAliveConnection pool host port).2 host port).1 = s := by
  simp [getKeepAliveConnection, h]

/-- Witness for C1 at a concrete pool. -/
theorem getKeepAliveConnection_nonremoving_witness :
    getKeepAliveConnection [("example.com:80", (7 : Int))] "example.com" "80" =
      (7, [("example.com:80", (7 : Int))]) ∧
    (getKeepAliveConnection
        (getKeepAliveConnection [("example.com:80", (7 : Int))]
          "example.com" "80").2 "example.com" "80").1 = 7 :=
  getKeepAliveConnection_nonremoving [("example.com:80", (7 : Int))]
    "example.com" "80" 7 (by decide)

/-- C1 (counterexample): on the pool holding socket `7` for
`example.com:80`, `get` returns `7`, and a second `get` immediately
afterwards returns `7` again rather than reporting absence (`-1`) —
the entry was not removed. -/
theorem getKeepAliveConnection_second_get_counterexample :
    (getKeepAliveConnection c1Pool "example.com" "80").1 = 7 ∧
    (getKeepAliveConnection (getKeepAliveConnection c1Pool "example.com"
        "80").2 "example.com" "80").1 = 7 ∧
    ¬ (getKeepAliveConnection (getKeepAliveConnection c1Pool "example.com"
        "80").2 "example.com" "80").1 = -1 := by
  decide

/-- C3 (code bug): when the whole chunked response — header block,
payload, and the `0\r\n\r\n` terminator — arrives in one single
upstream read, every received byte is forwarded to the client and
chunked encoding is recognised, yet the loop iteration falls through
to another `recv` instead of terminating: the header-completion branch
never tests for the chunked terminator. -/
theorem chunked_terminator_in_header_read_continues :
    containsSub s3Read "0\r\n\r\n" = true ∧
    (stepState (respStep initRespState s3Read)).chunkedEncoding = true ∧
    (stepState (respStep initRespState s3Read)).sent = [s3Read] ∧
    stepIsMore (respStep initRespState s3Read) = true := by
  decide

/-- C4 (counterexample): the upstream advertises
`Connection: keep-alive`, announces a 10-byte body, and then the next
read fails; the exchange ended with a read error, yet the handler
hands the socket to the pool and does not close it.  By contrast, on a
keep-alive header block whose `Content-Length` value overflows
`ULONG_MAX` the handler dies of the uncaught `std::out_of_range` and
pools nothing. -/
theorem read_error_still_pooled_counterexample :
    (forwardResponsePhase c4Trace).readError = true ∧
    (forwardResponsePhase c4Trace).pooledServer = true ∧
    (forwardResponsePhase c4Trace).closedServer = false ∧
    (forwardResponsePhase c4OverflowTrace).crashed = true ∧
    (forwardResponsePhase c4OverflowTrace).pooledServer = false ∧
    (forwardResponsePhase c4OverflowTrace).closedServer = false := by
  decide

/-- C4 (amended): unless the handler dies on the uncaught
`std::stoul` exception, the pooling decision depends only on whether
the response header block advertised `Connection: keep-alive`: the
socket is pooled exactly when it did and closed exactly when it did
not, regardless of whether the exchange ended cleanly or with a read
error. -/
theorem pooling_depends_only_on_keepalive_header (reads : List ReadEv)
    (h : (forwardResponsePhase reads).crashed = false) :
    (forwardResponsePhase reads).pooledServer =
      (forwardResponsePhase reads).keepAliveServer ∧
    (forwardResponsePhase reads).closedServer =
      !(forwardResponsePhase reads).keepAliveServer := by
  cases hx : responseLoop initRespState reads with
  | done st e => simp [forwardResponsePhase, hx]
  | crashed st =>
    exfalso
    simp [forwardResponsePhase, hx] at h

/-- Witness for C4 at the read-error trace. -/
theorem pooling_depends_only_on_keepalive_header_witness :
    (forwardResponsePhase c4Trace).crashed = false ∧
    ((forwardResponsePhase c4Trace).pooledServer =
        (forwardResponsePhase c4Trace).keepAliveServer ∧
      (forwardResponsePhase c4Trace).closedServer =
        !(forwardResponsePhase c4Trace).keepAliveServer) :=
  ⟨by decide, pooling_depends_only_on_keepalive_header c4Trace (by decide)⟩

/-- C9 (counterexample): the 502 error response built by
`sendErrorResponse` carries `Content-Length: 50`, not
`Content-Length: 53` — the HTML body
`<html><body><h1>502 Bad Gateway</h1></body></html>` is 50 bytes
long. -/
theorem sendErrorResponse_502_length_counterexample :
    containsSub (sendErrorResponse 502 "Bad Gateway") "Content-Length: 53" =
      false ∧
    containsSub (sendErrorResponse 502 "Bad Gateway") "Content-Length: 50" =
      true ∧
    (errorBody 502 "Bad Gateway").length = 50 := by
  decide

/-- C9 (amended): on dial failure the client receives exactly the
literal 502 response — status line, `Content-Type: text/html`,
`Connection: close`, a `Content-Length` header, a blank line and the
HTML body — with the `Content-Length` value being 50. -/
theorem sendErrorResponse_502_literal :
    sendErrorResponse 502 "Bad Gateway" =
      "HTTP/1.1 502 Bad Gateway\r\nContent-Type: text/html\r\nConnection: close\r\nContent-Length: 50\r\n\r\n<html><body><h1>502 Bad Gateway</h1></body></html>" := by
  decide

/-- C5 (counterexample): the pool holds socket `7` for
`example.com:80` and the one-byte peek fails with a real error
(`recv` returns `-1` with an errno other than `EAGAIN`); the dialer
nevertheless returns the pooled socket as live — it neither closes it,
nor removes the entry, nor falls through to a fresh dial. -/
theorem peek_error_reuses_socket_counterexample :
    connectToServerPoolStep c5Pool "example.com" "80" PeekRes.peekErr =
      DialStep.reusePooled 7 c5Pool := by
  decide

/-- C5 (amended): for a pooled socket, only a peek returning `0`
(orderly close by the peer) causes the socket to be closed, the entry
removed and a fresh dial attempted; every other peek outcome — data
pending, would-block, or an error — causes the pooled socket to be
returned as live, with the pool unchanged. -/
theorem poolStep_orderly_close_only (pool : List (String × Int))
    (host port : String) (s : Int)
    (h1 : pool.lookup (poolKey host port) = some s) (h2 : 0 < s) :
    connectToServerPoolStep pool host port PeekRes.orderlyClose =
      DialStep.freshDial (removeKeepAliveConnection pool host port) [s] ∧
    ∀ pk : PeekRes, pk ≠ PeekRes.orderlyClose →
      connectToServerPoolStep pool host port pk =
        DialStep.reusePooled s pool := by
  constructor
  · simp [connectToServerPoolStep, getKeepAliveConnection, h1, h2]
  · intro pk hpk
    cases pk <;>
      simp_all [connectToServerPoolStep, getKeepAliveConnection, h1, h2]

/-- Witness for C5 at a concrete pool, covering the orderly-close and
the would-block outcomes. -/
theorem poolStep_orderly_close_only_witness :
    connectToServerPoolStep c5Pool "example.com" "80" PeekRes.orderlyClose =
      DialStep.freshDial (removeKeepAliveConnection c5Pool "example.com" "80")
        [7] ∧
    connectToServerPoolStep c5Pool "example.com" "80" PeekRes.wouldBlock =
      DialStep.reusePooled 7 c5Pool :=
  ⟨(poolStep_orderly_close_only c5Pool "example.com" "80" 7 (by decide)
      (by decide)).1,
   (poolStep_orderly_close_only c5Pool "example.com" "80" 7 (by decide)
      (by decide)).2 PeekRes.wouldBlock (by decide)⟩

/-- C6 (counterexample): scenario S4 — a POST whose `Content-Length`
is `not-a-number` and whose body is non-empty.  The handler does emit
`400 Bad Request` and abort, but the upstream dial happens first: the
dial action is in the handler's action sequence, contradicting "no
dial is attempted on this path".  The same holds for the other
unparsable class, a numeric `Content-Length` above `ULONG_MAX`, where
`std::stoul` throws `std::out_of_range` into the same catch. -/
theorem post_bad_content_length_dials_counterexample :
    forwardPostEntry s4Req true =
      [PAct.dialUpstream "example.com" "80", PAct.closeServerSock,
       PAct.sendClient400] ∧
    PAct.dialUpstream "example.com" "80" ∈ forwardPostEntry s4Req true ∧
    requestContentLength c6OverflowReq = some none ∧
    forwardPostEntry c6OverflowReq true =
      [PAct.dialUpstream "example.com" "80", PAct.closeServerSock,
       PAct.sendClient400] ∧
    PAct.dialUpstream "example.com" "80" ∈
      forwardPostEntry c6OverflowReq true := by
  decide

/-- C6 (amended): for every POST whose headers carry an unparsable
`Content-Length`, or neither a positive `Content-Length` nor chunked
`Transfer-Encoding` while the body is non-empty, and whose dial
succeeds, the handler first dials upstream, then closes the just-
dialed upstream socket and emits `400 Bad Request` and aborts: the
dial is attempted before the validation. -/
theorem post_invalid_framing_after_dial (req : HttpRequest)
    (h : requestContentLength req = some none ∨
         (requestCLValue req = 0 ∧ requestChunked req = false ∧
          req.body ≠ "")) :
    forwardPostEntry req true =
      [PAct.dialUpstream req.host (if req.port = "" then "80" else req.port),
       PAct.closeServerSock, PAct.sendClient400] := by
  rcases h with h | ⟨h1, h2, h3⟩
  · simp [forwardPostEntry, h]
  · by_cases hcl : requestContentLength req = some none
    · simp [forwardPostEntry, hcl]
    · simp [forwardPostEntry, hcl, h1, h2, h3]

/-- Witness for C6 at the S4 request. -/
theorem post_invalid_framing_after_dial_witness :
    forwardPostEntry s4Req true =
      [PAct.dialUpstream s4Req.host
        (if s4Req.port = "" then "80" else s4Req.port),
       PAct.closeServerSock, PAct.sendClient400] :=
  post_invalid_framing_after_dial s4Req (Or.inl (by decide))

/-- C10 (counterexample): an upstream response whose header block is
`HTTP/1.1 200 OK\r\nContent-Length: abc\r\n\r\n` makes the handler's
`std::stoul` call throw: the loop iteration ends in the uncaught
exception and the handler aborts — the conversion is not total.  A
value above `ULONG_MAX` aborts the handler too
(`std::out_of_range`), while a value whose digits follow an `isspace`
byte such as `\n` is parsed (here to `5`) and the loop continues. -/
theorem contentLength_nonnumeric_throws_counterexample :
    stepThrew (respStep initRespState c10Read) = true ∧
    (forwardResponsePhase [ReadEv.chunk c10Read]).crashed = true ∧
    stepThrew (respStep initRespState c10OverflowRead) = true ∧
    (forwardResponsePhase [ReadEv.chunk c10OverflowRead]).crashed = true ∧
    stepThrew (respStep initRespState c10WsRead) = false ∧
    stepIsMore (respStep initRespState c10WsRead) = true ∧
    (stepState (respStep initRespState c10WsRead)).contentLength = 5 := by
  decide

/-- C10 (amended): when the completed header block contains
`"Content-Length: "` and the value characters up to the next CRLF are
not parsable by `std::stoul` — no leading decimal digit after
optional `isspace` characters and sign (`std::invalid_argument`), or
a digit run whose value exceeds `ULONG_MAX` (`std::out_of_range`) —
the response loop's conversion throws and the handler aborts; the
conversion is total only on parsable values. -/
theorem respStep_throws_on_unparsable_content_length (st : RespState)
    (chunk : String) (e p : Nat)
    (h1 : st.headersComplete = false)
    (h2 : findSub (st.responseHeaders ++ chunk) "\r\n\r\n" = some e)
    (h3 : findSub (String.mk ((st.responseHeaders ++ chunk).data.take e))
        "Content-Length: " = some p)
    (h4 : stoulOpt (contentLengthValue
        (String.mk ((st.responseHeaders ++ chunk).data.take e)) p) = none) :
    ∃ st', respStep st chunk = StepRes.threw st' := by
  refine ⟨?_, ?_⟩
  · exact { st with responseHeaders := st.responseHeaders ++ chunk,
                    headersComplete := true,
                    keepAliveServer :=
                      if containsSub (String.mk
                          ((st.responseHeaders ++ chunk).data.take e))
                          "Connection: keep-alive" then true
                      else st.keepAliveServer }
  · have hd : (st.responseHeaders ++ chunk).data =
        st.responseHeaders.data ++ chunk.data := String.data_append _ _
    rw [hd] at h3 h4
    simp [respStep, headerPhase, h1, h2, h3, h4]

/-- Witness for C10: the amended theorem applied at the concrete
non-numeric header block. -/
theorem respStep_throws_on_unparsable_content_length_witness :
    ∃ st', respStep initRespState c10Read = StepRes.threw st' :=
  respStep_throws_on_unparsable_content_length initRespState c10Read 36 17
    (by decide) (by decide) (by decide) (by decide)

/-- C2 (counterexample): the upstream sends the header block
`HTTP/1.1 200 OK\r\n\r\n` — no `Content-Length`, no chunked encoding —
then the bytes `more-bytes`, then EOF.  The loop exits without a read
error but has forwarded only the header block: the upstream bytes
received before EOF never reach the client. -/
theorem respLoop_no_framing_drops_counterexample :
    (forwardResponsePhase c2Trace).sent = [c2Hdr] ∧
    (forwardResponsePhase c2Trace).readError = false ∧
    (forwardResponsePhase c2Trace).crashed = false ∧
    containsSub c2Hdr "more-bytes" = false := by
  decide

/-- C2 (amended): when the completed header block contains neither
`Content-Length` nor `Transfer-Encoding: chunked`, the response loop
terminates immediately at the read that completes the header block,
having forwarded exactly the bytes accumulated up to and including
that read; upstream bytes delivered by later reads are dropped, and
the loop does not wait for EOF. -/
theorem respLoop_no_framing_stops_at_headers (st : RespState) (chunk : String)
    (rest : List ReadEv) (e : Nat)
    (h1 : st.headersComplete = false)
    (h2 : st.contentLength = 0)
    (h3 : st.chunkedEncoding = false)
    (h4 : findSub (st.responseHeaders ++ chunk) "\r\n\r\n" = some e)
    (h5 : containsSub (String.mk ((st.responseHeaders ++ chunk).data.take e))
        "Content-Length: " = false)
    (h6 : containsSub (String.mk ((st.responseHeaders ++ chunk).data.take e))
        "Transfer-Encoding: chunked" = false) :
    ∃ st', responseLoop st (ReadEv.chunk chunk :: rest) =
        LoopRes.done st' false ∧
      st'.sent = st.sent ++ [st.responseHeaders ++ chunk] := by
  have hd : (st.responseHeaders ++ chunk).data =
      st.responseHeaders.data ++ chunk.data := String.data_append _ _
  have h5' : findSub (String.mk ((st.responseHeaders ++ chunk).data.take e))
      "Content-Length: " = none := by
    cases hx : findSub (String.mk ((st.responseHeaders ++ chunk).data.take e))
        "Content-Length: " with
    | none => rfl
    | some v => rw [containsSub, hx] at h5; simp at h5
  have hstep : respStep st chunk = StepRes.halt
      { responseHeaders := st.responseHeaders ++ chunk,
        headersComplete := true, contentLength := st.contentLength,
        receivedBodyBytes := (st.responseHeaders ++ chunk).length - (e + 4),
        chunkedEncoding := st.chunkedEncoding,
        keepAliveServer :=
          if containsSub (String.mk ((st.responseHeaders ++ chunk).data.take e))
              "Connection: keep-alive" then true
          else st.keepAliveServer,
        sent := st.sent ++ [st.responseHeaders ++ chunk] } := by
    rw [hd] at h5' h6
    simp [respStep, headerPhase, h1, h4, h5', h6, h2, h3]
  refine ⟨{ responseHeaders := st.responseHeaders ++ chunk,
            headersComplete := true, contentLength := st.contentLength,
            receivedBodyBytes := (st.responseHeaders ++ chunk).length - (e + 4),
            chunkedEncoding := st.chunkedEncoding,
            keepAliveServer :=
              if containsSub (String.mk
                  ((st.responseHeaders ++ chunk).data.take e))
                  "Connection: keep-alive" then true
              else st.keepAliveServer,
            sent := st.sent ++ [st.responseHeaders ++ chunk] }, ?_, rfl⟩
  simp [responseLoop, hstep]

/-- Witness for C2: the amended theorem at scenario `c2Trace`. -/
theorem respLoop_no_framing_stops_at_headers_witness :
    ∃ st', responseLoop initRespState
        (ReadEv.chunk c2Hdr :: [ReadEv.chunk "more-bytes", ReadEv.eof]) =
        LoopRes.done st' false ∧
      st'.sent = initRespState.sent ++
        [initRespState.responseHeaders ++ c2Hdr] :=
  respLoop_no_framing_stops_at_headers initRespState c2Hdr
    [ReadEv.chunk "more-bytes", ReadEv.eof] 15 (by decide) (by decide)
    (by decide) (by decide) (by decide) (by decide)

/-- A name that compares case-insensitively equal to `Connection` is
in the strip list. -/
theorem connection_isHopByHop (n : String)
    (h : strcaseEq n "Connection" = true) : isHopByHop n = true := by
  simp [isHopByHop, hopByHopNames]
  exact Or.inl h

/-- No header surviving the strip has a hop-by-hop name. -/
theorem filter_hop_after_strip (l : List (String × String)) :
    (l.filter (fun h => !(isHopByHop h.1))).filter
      (fun h => isHopByHop h.1) = [] := by
  induction l with
  | nil => rfl
  | cons a t ih =>
    by_cases ha : isHopByHop a.1 = true
    · simp [List.filter_cons, ha, ih]
    · simp at ha
      simp [List.filter_cons, ha, ih]

/-- No header surviving the strip is named `Connection` (in any
casing). -/
theorem filter_conn_after_strip (l : List (String × String)) :
    (l.filter (fun h => !(isHopByHop h.1))).filter
      (fun h => strcaseEq h.1 "Connection") = [] := by
  induction l with
  | nil => rfl
  | cons a t ih =>
    by_cases ha : isHopByHop a.1 = true
    · simp [List.filter_cons, ha, ih]
    · have hc : strcaseEq a.1 "Connection" = false := by
        cases hx : strcaseEq a.1 "Connection" with
        | false => rfl
        | true => exact absurd (connection_isHopByHop a.1 hx) (by simp [ha])
      simp at ha
      simp [List.filter_cons, ha, hc, ih]

/-- Stripping twice strips once. -/
theorem filter_strip_idem (l : List (String × String)) :
    (l.filter (fun h => !(isHopByHop h.1))).filter
        (fun h => !(isHopByHop h.1)) =
      l.filter (fun h => !(isHopByHop h.1)) := by
  induction l with
  | nil => rfl
  | cons a t ih =>
    by_cases ha : isHopByHop a.1 = true
    · simp [List.filter_cons, ha, ih]
    · simp at ha
      simp [List.filter_cons, ha, ih]

/-- The renderer of header lines distributes over list append. -/
theorem renderHeaders_append (l1 l2 : List (String × String)) :
    renderHeaders (l1 ++ l2) = renderHeaders l1 ++ renderHeaders l2 := by
  induction l1 with
  | nil => simp [renderHeaders, String.empty_append]
  | cons a t ih => simp [renderHeaders, ih, String.append_assoc]

/-- C7 (confirmed): the forwarded request built by
`buildForwardRequest` contains, case-insensitively, no hop-by-hop
header of the request — the only header with a name from the strip
list is the injected one — contains exactly one `Connection` header
and its value is `keep-alive`, reproduces every non-hop-by-hop header
as received and in order, consists of the request line followed by
those header lines and the injected `Connection: keep-alive`, ends
with a blank line, and omits the request body. -/
theorem buildForwardRequest_hop_by_hop_contract (req : HttpRequest) :
    (forwardHeaderList req.headers).filter (fun h => isHopByHop h.1) =
      [("Connection", "keep-alive")] ∧
    (forwardHeaderList req.headers).filter
        (fun h => strcaseEq h.1 "Connection") =
      [("Connection", "keep-alive")] ∧
    (forwardHeaderList req.headers).filter (fun h => !(isHopByHop h.1)) =
      req.headers.filter (fun h => !(isHopByHop h.1)) ∧
    buildForwardRequest req =
      req.method ++ " " ++ req.request ++ " " ++ req.version ++ "\r\n" ++
        renderHeaders (forwardHeaderList req.headers) ++ "\r\n" ∧
    (∃ s, buildForwardRequest req = s ++ "\r\n\r\n") ∧
    buildForwardRequest req = buildForwardRequest { req with body := "" } := by
  refine ⟨?_, ?_, ?_, ?_, ?_, rfl⟩
  · rw [forwardHeaderList, List.filter_append, filter_hop_after_strip]
    simp [isHopByHop, hopByHopNames, strcaseEq]
  · rw [forwardHeaderList, List.filter_append, filter_conn_after_strip]
    simp [strcaseEq]
  · rw [forwardHeaderList, List.filter_append, filter_strip_idem]
    simp [isHopByHop, hopByHopNames, strcaseEq]
  · rw [buildForwardRequest, forwardHeaderList, renderHeaders_append]
    have hc : renderHeaders [("Connection", "keep-alive")] =
        "Connection: keep-alive\r\n" := by decide
    rw [hc]
    simp [String.append_assoc]
  · refine ⟨req.method ++ " " ++ req.request ++ " " ++ req.version ++
      "\r\n" ++ renderHeaders (req.headers.filter
        (fun h => !(isHopByHop h.1))) ++ "Connection: keep-alive", ?_⟩
    rw [buildForwardRequest]
    have hc : ("Connection: keep-alive\r\n" : String) ++ "\r\n" =
        "Connection: keep-alive" ++ "\r\n\r\n" := by decide
    simp only [String.append_assoc]
    rw [hc]

/-- The tunnel loop of the `CONNECT` handler closes no socket: its
actions are forwarding writes only. -/
theorem runTunnel_no_close (clientSocket serverSocket fd : Int)
    (evs : List TunnelEv) :
    CAct.closeFd fd ∉ runTunnel clientSocket serverSocket evs := by
  induction evs with
  | nil => simp [runTunnel]
  | cons ev rest ih =>
    cases ev with
    | selIntr => simpa [runTunnel, tunnelStep] using ih
    | selErr => simp [runTunnel, tunnelStep]
    | selTimeout => simpa [runTunnel, tunnelStep] using ih
    | clientAgain => simpa [runTunnel, tunnelStep] using ih
    | clientClosed => simp [runTunnel, tunnelStep]
    | clientBytes s ok =>
      cases ok with
      | false => simp [runTunnel, tunnelStep]
      | true => simpa [runTunnel, tunnelStep] using ih
    | serverAgain => simpa [runTunnel, tunnelStep] using ih
    | serverClosed => simp [runTunnel, tunnelStep]
    | serverBytes s ok =>
      cases ok with
      | false => simp [runTunnel, tunnelStep]
      | true => simpa [runTunnel, tunnelStep] using ih

/-- C8 (confirmed): after a successful dial, on every exit path of the
`CONNECT` handler — failed `200` write, or any tunnel run — the
upstream (server) socket is closed, and the client socket is never
closed by the handler. -/
theorem forwardConnect_close_discipline (clientSocket serverSocket : Int)
    (send200Ok : Bool) (evs : List TunnelEv)
    (h : clientSocket ≠ serverSocket) :
    CAct.closeFd serverSocket ∈
      forwardConnect clientSocket serverSocket true send200Ok evs ∧
    CAct.closeFd clientSocket ∉
      forwardConnect clientSocket serverSocket true send200Ok evs := by
  cases send200Ok with
  | false => simp [forwardConnect, h]
  | true =>
    constructor
    · simp [forwardConnect]
    · simp [forwardConnect, h,
        runTunnel_no_close clientSocket serverSocket clientSocket evs]

/-- Witness for C8 at concrete sockets and a concrete tunnel run. -/
theorem forwardConnect_close_discipline_witness :
    CAct.closeFd 4 ∈
      forwardConnect 3 4 true true [TunnelEv.clientBytes "x" true,
        TunnelEv.serverClosed] ∧
    CAct.closeFd 3 ∉
      forwardConnect 3 4 true true [TunnelEv.clientBytes "x" true,
        TunnelEv.serverClosed] :=
  forwardConnect_close_discipline 3 4 true
    [TunnelEv.clientBytes "x" true, TunnelEv.serverClosed] (by decide)

end WebProxy
